import Mathlib

/- Verification of analyzer.py: a slide-deck inconsistency analyzer.
   The program extracts text from a .pptx document or a folder of slide
   images (delegating OCR of images to an external generative model),
   concatenates the results into one content blob, and sends the blob with
   a fixed instruction preamble to the model for inconsistency analysis.
   External model calls are embedded as oracles: per-image call outcomes
   are part of the input (a returned response or a raised exception), and
   the analysis call is a function argument from prompt to response. -/

namespace Analyzer

/-- One candidate of a model response. The code inspects only
    `response.candidates[0].finish_reason.name`. -/
structure Candidate where
  finish_reason_name : String
deriving DecidableEq, Repr

/-- A response of `model.generate_content`: its candidate list and its
    `.text` accessor. -/
structure GenResponse where
  candidates : List Candidate
  text : String
deriving DecidableEq, Repr

/-- Outcome of one OCR interaction for one image: either the call chain
    (`shape.image` / `Image.open` / `model.generate_content`) raised an
    exception with message `e`, or it returned a response. -/
inductive OcrResult where
  | raised (e : String)
  | returned (response : GenResponse)
deriving DecidableEq, Repr

/-- The acceptance test of analyzer.py lines 66 and 98:
    `response.candidates and not response.candidates[0].finish_reason.name == "SAFETY"`.
    An empty candidate list is falsy, so the first candidate is read only
    when the list is non-empty. -/
def acceptResponse (response : GenResponse) : Bool :=
  match response.candidates with
  | [] => false
  | c :: _ => !(c.finish_reason_name == "SAFETY")

/-- The fixed OCR instruction sent together with each image
    (analyzer.py lines 63 and 95). -/
def ocr_instruction : String :=
  "Extract all text verbatim from this image. If no text is present, say nothing."

/-! ### Document mode: extract_content_from_pptx -/

/-- A shape of a slide: `text` is `some t` exactly when the Python object
    has a `text` attribute holding `t`; `shape_type` is the numeric shape
    type (13 identifies a Picture); `ocr` is the outcome of the OCR call on
    the shape's embedded image, consulted only for pictures. -/
structure Shape where
  text : Option String
  shape_type : Nat
  ocr : OcrResult
deriving DecidableEq, Repr

/-- The slide header emitted at the top of each slide block in document
    mode: `--- Slide {slide_number} ---\n\n` (line 48). -/
def slideHeader (slide_number : Nat) : String :=
  "--- Slide " ++ toString slide_number ++ " ---\n\n"

/-- One step of the first pass over a slide's shapes (lines 51-53):
    shapes exposing a `text` attribute contribute it plus a newline. -/
def textStep (acc : String) (shape : Shape) : String :=
  match shape.text with
  | some t => acc ++ t ++ "\n"
  | none => acc

/-- The first pass over a slide's shapes: the `for shape in slide.shapes`
    loop of lines 51-53. -/
def textPass : String → List Shape → String
  | acc, [] => acc
  | acc, shape :: rest => textPass (textStep acc shape) rest

/-- One step of the second pass (lines 56-67): a picture shape's image is
    sent for OCR; an exception propagates (the loop body has no handler);
    an accepted response appends a labelled line; a rejected one appends
    nothing. -/
def imageStep (acc : String) (shape : Shape) : Except String String :=
  if shape.shape_type = 13 then
    match shape.ocr with
    | .raised e => .error e
    | .returned response =>
      if acceptResponse response then
        .ok (acc ++ "[Text from image on slide]: " ++ response.text ++ "\n")
      else
        .ok acc
  else
    .ok acc

/-- The second pass over a slide's shapes: the `for shape in slide.shapes`
    loop of lines 56-67, with exception propagation. -/
def imagePass : String → List Shape → Except String String
  | acc, [] => .ok acc
  | acc, shape :: rest =>
    match imageStep acc shape with
    | .error e => .error e
    | .ok acc2 => imagePass acc2 rest

/-- One iteration of the slide loop (lines 46-67): header, text pass, image
    pass. -/
def processSlide (acc : String) (slide_number : Nat) (shapes : List Shape) :
    Except String String :=
  imagePass (textPass (acc ++ slideHeader slide_number) shapes) shapes

/-- The slide loop of lines 46-67: `for i, slide in enumerate(presentation.slides)`
    with `slide_number = i + 1`, accumulating into `full_text_content`. -/
def pptxLoop : String → Nat → List (List Shape) → Except String String
  | acc, _, [] => .ok acc
  | acc, n, shapes :: rest =>
    match processSlide acc n shapes with
    | .error e => .error e
    | .ok acc2 => pptxLoop acc2 (n + 1) rest

/-- The input of document mode: either `Presentation(pptx_path)` raised
    (line 38), or it opened to a list of slides, each a list of shapes. -/
inductive PptxDoc where
  | openFailure (e : String)
  | opened (slides : List (List Shape))

/-- extract_content_from_pptx (lines 34-68). The first component is the
    console output; the second is `.ok none` when opening failed (the
    function returns None), `.ok (some blob)` on success, and `.error e`
    when an OCR exception propagates out of the slide loop uncaught. -/
def extract_content_from_pptx : PptxDoc → List String × Except String (Option String)
  | .openFailure e =>
    (["[bold red]Error opening presentation file: " ++ e ++ "[/bold red]"], .ok none)
  | .opened slides =>
    (["[cyan]Processing " ++ toString slides.length ++ " slides from .pptx file...[/cyan]"],
      (pptxLoop "" 1 slides).map some)

/-! ### Folder mode: extract_content_from_image_folder -/

/-- A directory entry of the image folder: its filename and the outcome of
    the OCR interaction for it (`Image.open` plus `generate_content`; an
    exception from either is `raised`). -/
structure FolderFile where
  name : String
  ocr : OcrResult
deriving DecidableEq, Repr

/-- Python `f.lower()`: the filename lowercased character by character. -/
def lowerName (f : String) : String :=
  String.mk (f.data.map Char.toLower)

/-- The filter of line 77: `f.lower().endswith(('.png', '.jpg', '.jpeg', '.bmp'))`. -/
def hasImageExt (f : String) : Bool :=
  [".png", ".jpg", ".jpeg", ".bmp"].any fun ext =>
    List.isSuffixOf ext.data (lowerName f).data

/-- The digit characters of a filename, in order: Python
    `re.sub(r"\D", "", f)` keeps exactly the digits. -/
def stripNonDigits (f : String) : List Char :=
  f.data.filter Char.isDigit

/-- The sort key of line 78: `int(re.sub(r"\D", "", f) or 0)` — the digits
    of the filename read as a decimal integer, 0 when there are none. -/
def natKey (f : String) : Nat :=
  (stripNonDigits f).foldl (fun acc c => acc * 10 + (c.toNat - 48)) 0

/-- The comparison underlying `image_files.sort(key=lambda f: int(...))`:
    ascending order of the numeric key. -/
def fileKeyLE (a b : FolderFile) : Prop :=
  natKey a.name ≤ natKey b.name

instance : DecidableRel fileKeyLE :=
  fun a b => Nat.decLe (natKey a.name) (natKey b.name)

instance : IsTotal FolderFile fileKeyLE :=
  ⟨fun a b => Nat.le_total (natKey a.name) (natKey b.name)⟩

instance : IsTrans FolderFile fileKeyLE :=
  ⟨fun _ _ _ => Nat.le_trans⟩

/-- The in-place `image_files.sort(key=...)` of line 78: Python list.sort
    is a stable ascending sort by key, which insertion sort by the total
    preorder `fileKeyLE` implements exactly. -/
def sortImageFiles (l : List FolderFile) : List FolderFile :=
  List.insertionSort fileKeyLE l

/-- The per-file header of line 90: `--- Slide {slide_number} ({filename}) ---\n\n`
    with `slide_number = i + 1`. -/
def folderHeader (i : Nat) (name : String) : String :=
  "--- Slide " ++ toString (i + 1) ++ " (" ++ name ++ ") ---\n\n"

/-- What one iteration of the file loop appends after the header (the try
    body, lines 92-101): the accepted OCR text plus newline, nothing on
    rejection, or the inline error marker when the body raised. -/
def folderEntryBody (f : FolderFile) : String :=
  match f.ocr with
  | .raised e => "[Error processing image " ++ f.name ++ ": " ++ e ++ "]\n"
  | .returned response =>
    if acceptResponse response then response.text ++ "\n" else ""

/-- One iteration of the file loop (lines 88-101): header then body. -/
def folderEntry (i : Nat) (f : FolderFile) : String :=
  folderHeader i f.name ++ folderEntryBody f

/-- The file loop of lines 88-101, accumulating into `full_text_content`. -/
def folderLoop : String → Nat → List FolderFile → String
  | acc, _, [] => acc
  | acc, i, f :: rest => folderLoop (acc ++ folderEntry i f) (i + 1) rest

/-- The entries the file loop emits, one per file, starting at index `i`. -/
def folderEntriesFrom : Nat → List FolderFile → List String
  | _, [] => []
  | i, f :: rest => folderEntry i f :: folderEntriesFrom (i + 1) rest

/-- The input of folder mode: `os.path.isdir(folder_path)` is false, or the
    directory's listing (in `os.listdir` order, which is unspecified). -/
inductive FolderFS where
  | notDir
  | dir (entries : List FolderFile)

/-- extract_content_from_image_folder (lines 70-103). The first component
    is the console output; the second is `none` when the path is not a
    directory (the function returns None), `some ""` when no qualifying
    image is found, and otherwise the accumulated blob. -/
def extract_content_from_image_folder (folder_path : String) :
    FolderFS → List String × Option String
  | .notDir =>
    (["[bold red]Error: Folder not found at '" ++ folder_path ++ "'[/bold red]"], none)
  | .dir entries =>
    let image_files := sortImageFiles (entries.filter fun f => hasImageExt f.name)
    if image_files.isEmpty then
      (["[bold yellow]Warning: No image files found in '" ++ folder_path ++ "'[/bold yellow]"],
        some "")
    else
      (["[cyan]Processing " ++ toString image_files.length ++ " images from folder...[/cyan]"],
        some (folderLoop "" 0 image_files))

/-- The block one slide contributes to the blob in document mode, when its
    image pass raises no exception: the header, then the literal shape
    texts of the first pass, then the AI-derived image texts of the second
    pass. -/
def slideBlock (slide_number : Nat) (shapes : List Shape) : Except String String :=
  (imagePass "" shapes).map fun img =>
    slideHeader slide_number ++ (textPass "" shapes ++ img)

/-- The blocks of all slides from number `n` on, or the first exception. -/
def slideBlocks : Nat → List (List Shape) → Except String (List String)
  | _, [] => .ok []
  | n, shapes :: rest =>
    match slideBlock n shapes with
    | .error e => .error e
    | .ok b => (slideBlocks (n + 1) rest).map fun bs => b :: bs

/-- The message of the first exception the image pass of a slide raises:
    the first picture shape whose OCR interaction raised. -/
def firstImageExn (shapes : List Shape) : Option String :=
  shapes.findSome? fun s =>
    if s.shape_type = 13 then
      match s.ocr with
      | .raised e => some e
      | .returned _ => none
    else
      none

/-! ### Analysis and pipeline -/

/-- The system prompt of lines 111-121, a Python triple-quoted string with
    its literal leading newline and four-space indentation. -/
def system_prompt : String :=
  "\n    You are a meticulous business analyst. Your task is to review the provided content, extracted slide-by-slide from a presentation, and identify all factual or logical inconsistencies.\n\n    For each inconsistency you find, provide a clear, structured report using the following format:\n    **Inconsistency Found:**\n    - **Slides Involved:** [e.g., Slide 2 and Slide 5]\n    - **Conflicting Information:** [Quote the specific conflicting pieces of data or text]\n    - **Analysis:** [Briefly explain why this is an inconsistency]\n    ---\n    If you find no inconsistencies, your only response should be: \"No inconsistencies found.\"\n    "

/-- The composed prompt of line 124:
    `f"{system_prompt}\n\nHere is the presentation content:\n\n{content}"`. -/
def analysisPrompt (content : String) : String :=
  system_prompt ++ "\n\nHere is the presentation content:\n\n" ++ content

/-- Everything of the composed prompt that precedes the content. -/
def analysisPreamble : String :=
  system_prompt ++ "\n\nHere is the presentation content:\n\n"

/-- analyze_content_with_gemini (lines 107-128): one `generate_content`
    call on the composed prompt, whose `.text` is returned unconditionally
    (no candidate or finish-reason inspection on this path). The external
    call is the oracle argument. -/
def analyze_content_with_gemini (oracle : String → GenResponse) (content : String) : String :=
  (oracle (analysisPrompt content)).text

/-- Python truthiness of the extraction result at line 150
    (`if extracted_data:`): None and the empty string are falsy. -/
def truthy : Option String → Bool
  | none => false
  | some s => !(s == "")

/-- The tail of main (lines 149-159): analysis runs exactly when the
    extraction result is truthy; its report is the rendered output. -/
def pipelineReport (oracle : String → GenResponse) : Option String → Option String
  | none => none
  | some extracted_data =>
    if truthy (some extracted_data) then
      some (analyze_content_with_gemini oracle extracted_data)
    else
      none

/-! ### Helper lemmas -/

theorem strFoldlAppend (l : List String) :
    ∀ acc : String, l.foldl (fun r s => r ++ s) acc = acc ++ l.foldl (fun r s => r ++ s) "" := by
  induction l with
  | nil => intro acc; simp [String.append_empty]
  | cons a l ih =>
    intro acc
    show l.foldl (fun r s => r ++ s) (acc ++ a) = acc ++ l.foldl (fun r s => r ++ s) ("" ++ a)
    rw [ih (acc ++ a), ih ("" ++ a), String.empty_append, String.append_assoc]

theorem strJoinCons (a : String) (l : List String) :
    String.join (a :: l) = a ++ String.join l := by
  show (a :: l).foldl (fun r s => r ++ s) "" = a ++ l.foldl (fun r s => r ++ s) ""
  show l.foldl (fun r s => r ++ s) ("" ++ a) = a ++ l.foldl (fun r s => r ++ s) ""
  rw [String.empty_append, strFoldlAppend l a]

theorem textStep_decomp (acc : String) (shape : Shape) :
    textStep acc shape = acc ++ textStep "" shape := by
  cases h : shape.text <;>
    simp [textStep, h, String.append_empty, String.empty_append, String.append_assoc]

theorem textPass_decomp (shapes : List Shape) :
    ∀ acc, textPass acc shapes = acc ++ textPass "" shapes := by
  induction shapes with
  | nil => intro acc; simp [textPass, String.append_empty]
  | cons s rest ih =>
    intro acc
    show textPass (textStep acc s) rest = acc ++ textPass (textStep "" s) rest
    rw [ih (textStep acc s), ih (textStep "" s), textStep_decomp acc s, String.append_assoc]

theorem textPass_eq_join (shapes : List Shape) :
    textPass "" shapes = String.join (shapes.map fun s => textStep "" s) := by
  induction shapes with
  | nil => rfl
  | cons s rest ih =>
    show textPass (textStep "" s) rest = String.join (textStep "" s :: rest.map fun s => textStep "" s)
    rw [textPass_decomp rest (textStep "" s), ih, strJoinCons]

theorem imageStep_decomp (acc : String) (shape : Shape) :
    imageStep acc shape = (imageStep "" shape).map fun t => acc ++ t := by
  unfold imageStep
  by_cases h13 : shape.shape_type = 13
  · simp only [h13, if_true]
    cases shape.ocr with
    | raised e => rfl
    | returned response =>
      by_cases ha : acceptResponse response <;>
        simp [ha, Except.map, String.append_empty, String.empty_append, String.append_assoc]
  · simp [h13, Except.map, String.append_empty]

theorem imagePass_decomp (shapes : List Shape) :
    ∀ acc, imagePass acc shapes = (imagePass "" shapes).map fun t => acc ++ t := by
  induction shapes with
  | nil => intro acc; simp [imagePass, Except.map, String.append_empty]
  | cons s rest ih =>
    intro acc
    simp only [imagePass]
    rw [imageStep_decomp acc s]
    cases h : imageStep "" s with
    | error e => simp [Except.map]
    | ok t =>
      simp only [Except.map]
      rw [ih (acc ++ t), ih t]
      cases imagePass "" rest <;> simp [Except.map, String.append_assoc]

theorem processSlide_decomp (acc : String) (n : Nat) (shapes : List Shape) :
    processSlide acc n shapes = (slideBlock n shapes).map fun b => acc ++ b := by
  unfold processSlide slideBlock
  rw [textPass_decomp shapes (acc ++ slideHeader n),
    imagePass_decomp shapes (acc ++ slideHeader n ++ textPass "" shapes)]
  cases imagePass "" shapes <;> simp [Except.map, String.append_assoc]

theorem pptxLoop_decomp (slides : List (List Shape)) :
    ∀ acc n, pptxLoop acc n slides = (slideBlocks n slides).map fun bs => acc ++ String.join bs := by
  induction slides with
  | nil => intro acc n; simp [pptxLoop, slideBlocks, Except.map, String.join, String.append_empty]
  | cons s rest ih =>
    intro acc n
    simp only [pptxLoop, slideBlocks]
    rw [processSlide_decomp acc n s]
    cases hb : slideBlock n s with
    | error e => simp [Except.map]
    | ok b =>
      simp only [Except.map]
      rw [ih (acc ++ b) (n + 1)]
      cases slideBlocks (n + 1) rest <;>
        simp [Except.map, strJoinCons, String.append_assoc]

theorem slideBlocks_ok_spec (slides : List (List Shape)) :
    ∀ (n : Nat) (bs : List String), slideBlocks n slides = .ok bs →
      bs.length = slides.length ∧
      ∀ i (hi : i < bs.length), ∃ content, bs.get ⟨i, hi⟩ = slideHeader (n + i) ++ content := by
  induction slides with
  | nil =>
    intro n bs h
    cases h
    exact ⟨rfl, fun i hi => absurd hi (Nat.not_lt_zero i)⟩
  | cons s rest ih =>
    intro n bs h
    simp only [slideBlocks] at h
    cases hb : slideBlock n s with
    | error e => rw [hb] at h; cases h
    | ok b =>
      rw [hb] at h
      cases hr : slideBlocks (n + 1) rest with
      | error e => rw [hr] at h; cases h
      | ok bs2 =>
        rw [hr] at h
        simp only [Except.map] at h
        cases h
        obtain ⟨hlen, hget⟩ := ih (n + 1) bs2 hr
        refine ⟨by simp [hlen], ?_⟩
        intro i hi
        cases i with
        | zero =>
          unfold slideBlock at hb
          cases hip : imagePass "" s with
          | error e => rw [hip] at hb; cases hb
          | ok img =>
            rw [hip] at hb
            simp only [Except.map] at hb
            cases hb
            exact ⟨textPass "" s ++ img, by simp⟩
        | succ j =>
          have hj : j < bs2.length := by simpa using hi
          obtain ⟨c, hc⟩ := hget j hj
          refine ⟨c, ?_⟩
          show bs2.get ⟨j, hj⟩ = slideHeader (n + (j + 1)) ++ c
          rw [hc]
          have : n + 1 + j = n + (j + 1) := by omega
          rw [this]

theorem folderEntriesFrom_length (files : List FolderFile) :
    ∀ i, (folderEntriesFrom i files).length = files.length := by
  induction files with
  | nil => intro i; rfl
  | cons f rest ih => intro i; simp [folderEntriesFrom, ih (i + 1)]

theorem folderLoop_decomp (files : List FolderFile) :
    ∀ acc i, folderLoop acc i files = acc ++ String.join (folderEntriesFrom i files) := by
  induction files with
  | nil => intro acc i; simp [folderLoop, folderEntriesFrom, String.join, String.append_empty]
  | cons f rest ih =>
    intro acc i
    show folderLoop (acc ++ folderEntry i f) (i + 1) rest =
      acc ++ String.join (folderEntry i f :: folderEntriesFrom (i + 1) rest)
    rw [ih (acc ++ folderEntry i f) (i + 1), strJoinCons, String.append_assoc]

theorem folderEntriesFrom_get (files : List FolderFile) :
    ∀ (n k : Nat) (hk : k < files.length) (hk2 : k < (folderEntriesFrom n files).length),
      (folderEntriesFrom n files).get ⟨k, hk2⟩ = folderEntry (n + k) (files.get ⟨k, hk⟩) := by
  induction files with
  | nil => intro n k hk _; exact absurd hk (Nat.not_lt_zero k)
  | cons f rest ih =>
    intro n k hk hk2
    cases k with
    | zero => simp [folderEntriesFrom]
    | succ j =>
      have hj : j < rest.length := by simpa using hk
      have hj2 : j < (folderEntriesFrom (n + 1) rest).length := by
        rw [folderEntriesFrom_length]; exact hj
      show (folderEntriesFrom (n + 1) rest).get ⟨j, hj2⟩ = folderEntry (n + (j + 1)) (rest.get ⟨j, hj⟩)
      rw [ih (n + 1) j hj hj2]
      have : n + 1 + j = n + (j + 1) := by omega
      rw [this]

theorem imagePass_error_of_firstExn (shapes : List Shape) :
    ∀ (e : String) (acc : String), firstImageExn shapes = some e →
      imagePass acc shapes = .error e := by
  induction shapes with
  | nil => intro e acc h; cases h
  | cons s rest ih =>
    intro e acc h
    simp only [firstImageExn, List.findSome?] at h
    simp only [imagePass, imageStep]
    by_cases h13 : s.shape_type = 13
    · simp only [h13, if_true] at h ⊢
      cases ho : s.ocr with
      | raised e2 =>
        rw [ho] at h
        simp only at h
        cases h
        rfl
      | returned response =>
        rw [ho] at h
        simp only at h
        by_cases ha : acceptResponse response <;>
          simp [ha, ih e _ h]
    · simp only [h13, if_false] at h ⊢
      exact ih e acc h

theorem imagePass_ok_of_firstExn_none (shapes : List Shape) :
    ∀ acc, firstImageExn shapes = none → ∃ t, imagePass acc shapes = .ok t := by
  induction shapes with
  | nil => intro acc _; exact ⟨acc, rfl⟩
  | cons s rest ih =>
    intro acc h
    simp only [firstImageExn, List.findSome?] at h
    simp only [imagePass, imageStep]
    by_cases h13 : s.shape_type = 13
    · simp only [h13, if_true] at h ⊢
      cases ho : s.ocr with
      | raised e2 => rw [ho] at h; simp at h
      | returned response =>
        rw [ho] at h
        simp only at h
        by_cases ha : acceptResponse response <;> simp [ha, ih _ h]
    · simp only [h13, if_false] at h ⊢
      exact ih acc h

theorem pptxLoop_error_of_bad_slide (pre : List (List Shape)) :
    ∀ (bad : List Shape) (post : List (List Shape)) (e : String) (acc : String) (n : Nat),
      (∀ s ∈ pre, firstImageExn s = none) → firstImageExn bad = some e →
      pptxLoop acc n (pre ++ bad :: post) = .error e := by
  induction pre with
  | nil =>
    intro bad post e acc n _ hbad
    simp only [List.nil_append, pptxLoop, processSlide]
    rw [imagePass_error_of_firstExn bad e _ hbad]
  | cons s pre2 ih =>
    intro bad post e acc n hpre hbad
    simp only [List.cons_append, pptxLoop, processSlide]
    obtain ⟨t, ht⟩ :=
      imagePass_ok_of_firstExn_none s (textPass (acc ++ slideHeader n) s) (hpre s (by simp))
    rw [ht]
    exact ih bad post e t (n + 1) (fun x hx => hpre x (by simp [hx])) hbad

/-! ### Claim theorems -/

/-- C1: In folder mode the qualifying image files are processed in
    ascending order of the integer key obtained by deleting all non-digit
    characters of the filename and parsing the remaining digits as an
    integer, a filename without digits getting key 0: the sorted list is a
    permutation of the filtered listing and is pairwise ascending in
    `natKey`; in particular slide2 keys to 2 and slide10 to 10, so slide2
    orders before slide10. -/
theorem folder_files_sorted_by_digit_key (files : List FolderFile) :
    (sortImageFiles files).Perm files ∧
    List.Sorted fileKeyLE (sortImageFiles files) ∧
    (∀ a b : FolderFile, fileKeyLE a b ↔ natKey a.name ≤ natKey b.name) ∧
    natKey "slide2.png" = 2 ∧ natKey "slide10.png" = 10 ∧ natKey "cover.bmp" = 0 :=
  ⟨List.perm_insertionSort fileKeyLE files, List.sorted_insertionSort fileKeyLE files,
    fun _ _ => Iff.rfl, by decide, by decide, by decide⟩

/-- C7: When the document cannot be opened in document mode, or the path is
    not a directory in folder mode, extraction reports the error and
    returns the no-blob result (None), and the pipeline produces no report
    whatever the analysis oracle would answer: the Analyzer is never
    reached. -/
theorem open_failure_prevents_analysis (e folder_path : String)
    (oracle : String → GenResponse) :
    extract_content_from_pptx (.openFailure e) =
      (["[bold red]Error opening presentation file: " ++ e ++ "[/bold red]"], .ok none) ∧
    extract_content_from_image_folder folder_path .notDir =
      (["[bold red]Error: Folder not found at '" ++ folder_path ++ "'[/bold red]"], none) ∧
    pipelineReport oracle none = none :=
  ⟨rfl, rfl, rfl⟩

/-- C8: The Analyzer sends exactly one prompt, the fixed instruction
    preamble followed by the content blob verbatim, and returns the
    response text of the oracle unconditionally (no candidate or safety
    inspection); every substring of the blob therefore occurs in the
    prompt. -/
theorem analysis_prompt_and_raw_text (oracle : String → GenResponse) (content : String) :
    analyze_content_with_gemini oracle content = (oracle (analysisPrompt content)).text ∧
    analysisPrompt content = analysisPreamble ++ content ∧
    ∀ u a b : String, content = a ++ u ++ b →
      ∃ a2 b2 : String, analysisPrompt content = a2 ++ u ++ b2 := by
  refine ⟨rfl, rfl, ?_⟩
  intro u a b hc
  refine ⟨analysisPreamble ++ a, b, ?_⟩
  rw [show analysisPrompt content = analysisPreamble ++ content from rfl, hc]
  simp [String.append_assoc]

/-- Witness for C8 at a concrete oracle and blob: the analysis result is
    the prompt itself under the echo oracle, and the substring lo of blob
    blob occurs in the prompt. -/
theorem analysis_prompt_and_raw_text_witness :
    ("blob" : String) = "b" ++ "lo" ++ "b" ∧
    analyze_content_with_gemini (fun p => ⟨[], p⟩) "blob" = analysisPrompt "blob" ∧
    ∃ a2 b2 : String, analysisPrompt "blob" = a2 ++ "lo" ++ b2 := by
  obtain ⟨h1, _, h3⟩ := analysis_prompt_and_raw_text (fun p => ⟨[], p⟩) "blob"
  exact ⟨by decide, h1, h3 "lo" "b" "b" (by decide)⟩

/-- C2: In document mode, a successful extraction of a document with N
    slides yields a blob that is the concatenation of exactly N blocks, the
    i-th block (0-indexed) beginning with the header of slide i+1: each
    slide's header marker appears before any content attributed to that
    slide, and there are exactly as many headers emitted as slides. -/
theorem pptx_blob_has_header_per_slide (slides : List (List Shape)) (blob : String)
    (h : (extract_content_from_pptx (.opened slides)).2 = .ok (some blob)) :
    ∃ bs : List String, bs.length = slides.length ∧ blob = String.join bs ∧
      ∀ i (hi : i < bs.length), ∃ content, bs.get ⟨i, hi⟩ = slideHeader (i + 1) ++ content := by
  have h2 : (pptxLoop "" 1 slides).map some = .ok (some blob) := h
  rw [pptxLoop_decomp slides "" 1] at h2
  cases hb : slideBlocks 1 slides with
  | error e => rw [hb] at h2; cases h2
  | ok bs =>
    rw [hb] at h2
    simp only [Except.map] at h2
    cases h2
    obtain ⟨hlen, hget⟩ := slideBlocks_ok_spec slides 1 bs hb
    refine ⟨bs, hlen, (String.empty_append _).symm, ?_⟩
    intro i hi
    obtain ⟨c, hc⟩ := hget i hi
    exact ⟨c, by rw [hc, Nat.add_comm]⟩

/-- Witness for C2: a concrete two-slide document (one text shape on slide
    one, nothing on slide two) whose blob splits into two blocks, each
    starting with its header. -/
theorem pptx_blob_has_header_per_slide_witness :
    (extract_content_from_pptx
        (.opened [[⟨some "Hello", 1, .returned ⟨[], ""⟩⟩], []])).2 =
      .ok (some "--- Slide 1 ---\n\nHello\n--- Slide 2 ---\n\n") ∧
    ∃ bs : List String,
      bs.length = ([[⟨some "Hello", 1, .returned ⟨[], ""⟩⟩], []] : List (List Shape)).length ∧
      "--- Slide 1 ---\n\nHello\n--- Slide 2 ---\n\n" = String.join bs ∧
      ∀ i (hi : i < bs.length), ∃ content, bs.get ⟨i, hi⟩ = slideHeader (i + 1) ++ content :=
  ⟨rfl, pptx_blob_has_header_per_slide _ _ rfl⟩

/-- C3: Within one slide of document mode, all literal shape text (the
    first pass over the shapes) appears in the slide's contribution before
    any AI-derived image text (the second pass): when the image pass
    returns `img`, the slide contributes header, then the first pass's
    text, then `img`; and the first pass's text is exactly the
    concatenation of the per-shape text contributions. -/
theorem slide_text_precedes_image_text (acc : String) (n : Nat) (shapes : List Shape)
    (img : String) (h : imagePass "" shapes = .ok img) :
    processSlide acc n shapes = .ok (acc ++ (slideHeader n ++ (textPass "" shapes ++ img))) ∧
    textPass "" shapes = String.join (shapes.map fun s => textStep "" s) := by
  refine ⟨?_, textPass_eq_join shapes⟩
  rw [processSlide_decomp, slideBlock, h]
  simp [Except.map]

/-- Witness for C3: a slide with one text shape followed by one picture
    shape whose OCR is accepted; the literal text stands before the image
    text in the block. -/
theorem slide_text_precedes_image_text_witness :
    imagePass "" [⟨some "T", 1, .returned ⟨[], ""⟩⟩, ⟨none, 13, .returned ⟨[⟨"STOP"⟩], "IMG"⟩⟩] =
      .ok "[Text from image on slide]: IMG\n" ∧
    processSlide "A" 3 [⟨some "T", 1, .returned ⟨[], ""⟩⟩, ⟨none, 13, .returned ⟨[⟨"STOP"⟩], "IMG"⟩⟩] =
      .ok ("A" ++ (slideHeader 3 ++
        (textPass "" [⟨some "T", 1, .returned ⟨[], ""⟩⟩, ⟨none, 13, .returned ⟨[⟨"STOP"⟩], "IMG"⟩⟩] ++
          "[Text from image on slide]: IMG\n"))) :=
  ⟨rfl, (slide_text_precedes_image_text "A" 3
    [⟨some "T", 1, .returned ⟨[], ""⟩⟩, ⟨none, 13, .returned ⟨[⟨"STOP"⟩], "IMG"⟩⟩]
    "[Text from image on slide]: IMG\n" rfl).1⟩

/-- C4: An OCR response is accepted exactly when its candidate list is
    non-empty and the first candidate's finish reason is not SAFETY. A
    rejected response contributes zero characters in either mode (no error,
    no placeholder) and processing continues with the remaining shapes or
    files, and the response's text field is never read when rejected (the
    output is identical for any value of it). -/
theorem ocr_acceptance_spec :
    (∀ response : GenResponse, acceptResponse response = true ↔
        ∃ c cs, response.candidates = c :: cs ∧ c.finish_reason_name ≠ "SAFETY") ∧
    (∀ (acc : String) (shape : Shape) (response : GenResponse) (rest : List Shape),
        shape.shape_type = 13 → shape.ocr = .returned response →
        acceptResponse response = false →
        imageStep acc shape = .ok acc ∧ imagePass acc (shape :: rest) = imagePass acc rest) ∧
    (∀ (i : Nat) (f : FolderFile) (response : GenResponse) (acc : String)
        (rest : List FolderFile),
        f.ocr = .returned response → acceptResponse response = false →
        folderEntry i f = folderHeader i f.name ∧
        folderLoop acc i (f :: rest) = folderLoop (acc ++ folderHeader i f.name) (i + 1) rest) ∧
    (∀ (acc : String) (shape : Shape) (response : GenResponse) (t : String),
        shape.ocr = .returned response → acceptResponse response = false →
        imageStep acc { shape with ocr := .returned { response with text := t } } =
          imageStep acc shape) := by
  refine ⟨?_, ?_, ?_, ?_⟩
  · intro response
    obtain ⟨cands, txt⟩ := response
    cases cands with
    | nil => simp [acceptResponse]
    | cons c cs => simp [acceptResponse]
  · intro acc shape response rest h13 hocr hrej
    have h1 : imageStep acc shape = .ok acc := by
      simp [imageStep, h13, hocr, hrej]
    exact ⟨h1, by simp [imagePass, h1]⟩
  · intro i f response acc rest hocr hrej
    have h1 : folderEntry i f = folderHeader i f.name := by
      simp [folderEntry, folderEntryBody, hocr, hrej, String.append_empty]
    exact ⟨h1, by simp [folderLoop, h1]⟩
  · intro acc shape response t hocr hrej
    obtain ⟨cands, txt⟩ := response
    have hs : acceptResponse ⟨cands, t⟩ = false := by
      have heq : acceptResponse ⟨cands, t⟩ = acceptResponse ⟨cands, txt⟩ := by
        cases cands <;> simp [acceptResponse]
      rw [heq]
      exact hrej
    simp [imageStep, hocr, hs, hrej]

/-- Witness for C4: a SAFETY-blocked response is rejected, contributes
    nothing in document mode and nothing beyond the header in folder mode,
    whatever its text field holds. -/
theorem ocr_acceptance_spec_witness :
    acceptResponse ⟨[⟨"SAFETY"⟩], "hidden"⟩ = false ∧
    imageStep "A" ⟨none, 13, .returned ⟨[⟨"SAFETY"⟩], "hidden"⟩⟩ = .ok "A" ∧
    folderEntry 0 ⟨"a.png", .returned ⟨[⟨"SAFETY"⟩], "hidden"⟩⟩ = folderHeader 0 "a.png" ∧
    imageStep "A" ⟨none, 13, .returned ⟨[⟨"SAFETY"⟩], "other"⟩⟩ =
      imageStep "A" ⟨none, 13, .returned ⟨[⟨"SAFETY"⟩], "hidden"⟩⟩ := by
  refine ⟨by decide, ?_, ?_, ?_⟩
  · exact (ocr_acceptance_spec.2.1 "A" ⟨none, 13, .returned ⟨[⟨"SAFETY"⟩], "hidden"⟩⟩
      ⟨[⟨"SAFETY"⟩], "hidden"⟩ [] rfl rfl (by decide)).1
  · exact (ocr_acceptance_spec.2.2.1 0 ⟨"a.png", .returned ⟨[⟨"SAFETY"⟩], "hidden"⟩⟩
      ⟨[⟨"SAFETY"⟩], "hidden"⟩ "" [] rfl (by decide)).1
  · exact ocr_acceptance_spec.2.2.2 "A" ⟨none, 13, .returned ⟨[⟨"SAFETY"⟩], "hidden"⟩⟩
      ⟨[⟨"SAFETY"⟩], "hidden"⟩ "other" rfl (by decide)

/-- C5: In folder mode a file whose decode or OCR raises contributes its
    header followed by exactly one inline error marker naming the file, and
    the loop still processes every later file of the sorted order, each
    contributing its own entry. -/
theorem folder_exception_inline_marker (acc : String) (i : Nat) (f : FolderFile) (e : String)
    (rest : List FolderFile) (h : f.ocr = .raised e) :
    folderEntry i f =
      folderHeader i f.name ++ ("[Error processing image " ++ f.name ++ ": " ++ e ++ "]\n") ∧
    folderLoop acc i (f :: rest) =
      (acc ++ folderEntry i f) ++ String.join (folderEntriesFrom (i + 1) rest) := by
  constructor
  · simp [folderEntry, folderEntryBody, h]
  · show folderLoop (acc ++ folderEntry i f) (i + 1) rest = _
    rw [folderLoop_decomp rest (acc ++ folderEntry i f) (i + 1)]

/-- Witness for C5: a failing first file yields its error marker and the
    following file is still processed into the blob. -/
theorem folder_exception_inline_marker_witness :
    folderEntry 0 ⟨"a.png", .raised "boom"⟩ =
      folderHeader 0 "a.png" ++ ("[Error processing image " ++ "a.png" ++ ": " ++ "boom" ++ "]\n") ∧
    folderLoop "" 0 [⟨"a.png", .raised "boom"⟩, ⟨"b.png", .returned ⟨[⟨"STOP"⟩], "OK"⟩⟩] =
      ("" ++ folderEntry 0 ⟨"a.png", .raised "boom"⟩) ++
        String.join (folderEntriesFrom 1 [⟨"b.png", .returned ⟨[⟨"STOP"⟩], "OK"⟩⟩]) :=
  folder_exception_inline_marker "" 0 ⟨"a.png", .raised "boom"⟩ "boom"
    [⟨"b.png", .returned ⟨[⟨"STOP"⟩], "OK"⟩⟩] rfl

/-- C6: When the directory exists but holds no file with a png, jpg, jpeg
    or bmp extension (case-insensitively), extraction returns the empty
    blob with a warning message, and the pipeline then skips analysis
    entirely (the empty string is falsy). -/
theorem folder_no_images_warning (folder_path : String) (entries : List FolderFile)
    (oracle : String → GenResponse) (h : ∀ f ∈ entries, hasImageExt f.name = false) :
    extract_content_from_image_folder folder_path (.dir entries) =
      (["[bold yellow]Warning: No image files found in '" ++ folder_path ++ "'[/bold yellow]"],
        some "") ∧
    pipelineReport oracle (some "") = none := by
  have hfil : entries.filter (fun f => hasImageExt f.name) = [] :=
    List.filter_eq_nil_iff.mpr (by intro a ha; simp [h a ha])
  constructor
  · simp [extract_content_from_image_folder, hfil, sortImageFiles]
  · rfl

/-- Witness for C6: a directory holding only a text file and a pdf yields
    the warning and the empty blob, and no analysis happens. -/
theorem folder_no_images_warning_witness :
    (∀ f ∈ [(⟨"notes.txt", .raised "x"⟩ : FolderFile), ⟨"deck.pdf", .raised "x"⟩],
        hasImageExt f.name = false) ∧
    extract_content_from_image_folder "slides"
        (.dir [⟨"notes.txt", .raised "x"⟩, ⟨"deck.pdf", .raised "x"⟩]) =
      (["[bold yellow]Warning: No image files found in '" ++ "slides" ++ "'[/bold yellow]"],
        some "") ∧
    pipelineReport (fun p => ⟨[], p⟩) (some "") = none := by
  have h : ∀ f ∈ [(⟨"notes.txt", .raised "x"⟩ : FolderFile), ⟨"deck.pdf", .raised "x"⟩],
      hasImageExt f.name = false := by decide
  obtain ⟨h1, h2⟩ := folder_no_images_warning "slides"
    [⟨"notes.txt", .raised "x"⟩, ⟨"deck.pdf", .raised "x"⟩] (fun p => ⟨[], p⟩) h
  exact ⟨h, h1, h2⟩

/-- C9: In folder mode the slide number written in the k-th processed
    file's header is k+1, its sequential position in the sorted order,
    independent of any numeric substring of the filename: the blob is the
    concatenation of one entry per file and the k-th entry starts with
    a header naming slide k+1 and the filename. -/
theorem folder_sequential_numbering (files : List FolderFile) (k : Nat)
    (hk : k < files.length) (hk2 : k < (folderEntriesFrom 0 files).length) :
    folderLoop "" 0 files = String.join (folderEntriesFrom 0 files) ∧
    (folderEntriesFrom 0 files).length = files.length ∧
    (folderEntriesFrom 0 files).get ⟨k, hk2⟩ =
      ("--- Slide " ++ toString (k + 1) ++ " (" ++ (files.get ⟨k, hk⟩).name ++ ") ---\n\n") ++
        folderEntryBody (files.get ⟨k, hk⟩) := by
  refine ⟨by rw [folderLoop_decomp, String.empty_append], folderEntriesFrom_length files 0, ?_⟩
  rw [folderEntriesFrom_get files 0 k hk hk2, Nat.zero_add]
  rfl

/-- Witness for C9: a file named slide7.png sitting in position 0 is
    labelled Slide 1, not Slide 7. -/
theorem folder_sequential_numbering_witness :
    (0 : Nat) < ([(⟨"slide7.png", .returned ⟨[], "x"⟩⟩ : FolderFile)]).length ∧
    (folderEntriesFrom 0 [(⟨"slide7.png", .returned ⟨[], "x"⟩⟩ : FolderFile)]).get
        ⟨0, by decide⟩ =
      ("--- Slide " ++ toString (0 + 1) ++ " (" ++ "slide7.png" ++ ") ---\n\n") ++
        folderEntryBody ⟨"slide7.png", .returned ⟨[], "x"⟩⟩ :=
  ⟨by decide,
    (folder_sequential_numbering [⟨"slide7.png", .returned ⟨[], "x"⟩⟩] 0
      (by decide) (by decide)).2.2⟩

/-- C10: In document mode an exception raised while decoding or OCR-ing an
    embedded picture is not caught: when every slide before the failing one
    is exception-free and the failing slide's first picture exception has
    message e, the whole extraction evaluates to that uncaught exception —
    no blob, no inline marker — and the result does not depend on the
    slides after the failing one, which are never processed. -/
theorem pptx_image_exception_aborts_extraction (pre : List (List Shape)) (bad : List Shape)
    (post post2 : List (List Shape)) (e : String)
    (hpre : ∀ s ∈ pre, firstImageExn s = none) (hbad : firstImageExn bad = some e) :
    (extract_content_from_pptx (.opened (pre ++ bad :: post))).2 = .error e ∧
    (extract_content_from_pptx (.opened (pre ++ bad :: post))).2 =
      (extract_content_from_pptx (.opened (pre ++ bad :: post2))).2 := by
  have h1 : pptxLoop "" 1 (pre ++ bad :: post) = .error e :=
    pptxLoop_error_of_bad_slide pre bad post e "" 1 hpre hbad
  have h2 : pptxLoop "" 1 (pre ++ bad :: post2) = .error e :=
    pptxLoop_error_of_bad_slide pre bad post2 e "" 1 hpre hbad
  constructor
  · show (pptxLoop "" 1 (pre ++ bad :: post)).map some = .error e
    rw [h1]; rfl
  · show (pptxLoop "" 1 (pre ++ bad :: post)).map some =
      (pptxLoop "" 1 (pre ++ bad :: post2)).map some
    rw [h1, h2]

/-- Witness for C10: one text-only slide, then a slide whose picture OCR
    raises boom; extraction is the uncaught exception however many slides
    follow. -/
theorem pptx_image_exception_aborts_extraction_witness :
    firstImageExn [⟨none, 13, .raised "boom"⟩] = some "boom" ∧
    (extract_content_from_pptx
        (.opened ([[⟨some "fine", 1, .returned ⟨[], ""⟩⟩]] ++
          [⟨none, 13, .raised "boom"⟩] :: [[⟨some "lost", 1, .returned ⟨[], ""⟩⟩]]))).2 =
      .error "boom" := by
  have h := pptx_image_exception_aborts_extraction
    [[⟨some "fine", 1, .returned ⟨[], ""⟩⟩]] [⟨none, 13, .raised "boom"⟩]
    [[⟨some "lost", 1, .returned ⟨[], ""⟩⟩]] [] "boom"
    (by intro s hs; simp at hs; rw [hs]; rfl) rfl
  exact ⟨rfl, h.1⟩

end Analyzer
